import Mathlib

/-!
Shallow embedding of the telemetry transport and device supervisor of the
`whofi` CSI firmware.

Sources embedded:
* `src/csi-firmware/components/websocket_telemetry/include/websocket_telemetry.h`
  (message tag set, wire header layout, batch-size limit) — header only, the
  implementation is not part of the repository snapshot, so the codec and the
  batch sender are modelled from the specification.
* `src/csi-firmware/components/http_telemetry/include/http_telemetry.h`
  (configuration fields, statistics counters) — header only, the retry loop is
  modelled from the specification.
* `src/csi-firmware/main/main.c` — the supervisor loop (`app_main_task`).
* `src/csi-firmware/main/remote_config.c` — remote configuration / command
  handlers.

C byte buffers are modelled as `List Nat` (each entry one byte) and C `char`
arrays as `List Char`.  ESP-IDF error codes are modelled by the inductive
`EspErr`.
-/

/-- ESP-IDF error codes used by the embedded functions (`esp_err_t`). -/
inductive EspErr where
  | ok
  | fail
  | errInvalidArg
  | errNotSupported
  | errTimeout
  | other (code : Nat)
  deriving DecidableEq, Repr

/-- The seven websocket message tags, from `websocket_msg_type_t`
(`websocket_telemetry.h:62-70`). -/
inductive MsgTag where
  | csiData
  | systemMetrics
  | heartbeat
  | alert
  | batchCsi
  | ping
  | pong
  deriving DecidableEq, Repr

/-- Numeric value of each tag (`WS_MSG_CSI_DATA = 1` … `WS_MSG_PONG = 7`). -/
def MsgTag.toByte : MsgTag → Nat
  | .csiData => 1
  | .systemMetrics => 2
  | .heartbeat => 3
  | .alert => 4
  | .batchCsi => 5
  | .ping => 6
  | .pong => 7

/-- Partial inverse of `MsgTag.toByte`: unknown tag bytes are rejected. -/
def tagOfByte : Nat → Option MsgTag
  | 1 => some .csiData
  | 2 => some .systemMetrics
  | 3 => some .heartbeat
  | 4 => some .alert
  | 5 => some .batchCsi
  | 6 => some .ping
  | 7 => some .pong
  | _ => none

/-- Little-endian bytes of a 16-bit field (`uint16_t payload_len`). -/
def le16 (n : Nat) : List Nat := [n % 256, n / 256 % 256]

/-- Little-endian bytes of a 32-bit field (`uint32_t sequence_num`). -/
def le32 (n : Nat) : List Nat :=
  [n % 256, n / 256 % 256, n / 65536 % 256, n / 16777216 % 256]

/-- Errors of the wire codec, from the specification's error taxonomy. -/
inductive CodecError where
  | payloadTooLarge
  | deviceIdTooLong
  | framingError
  deriving DecidableEq, Repr

/-- The 8-byte wire header of `websocket_msg_header_t`
(`websocket_telemetry.h:75-80`, `__attribute__((packed))`, little-endian
target): `msg_type`(1) · `device_id_len`(1) · `payload_len`(2) ·
`sequence_num`(4). -/
def headerBytes (tag : MsgTag) (deviceId payload : List Nat) (seq : Nat) : List Nat :=
  tag.toByte :: deviceId.length :: (le16 payload.length ++ le32 seq)

/-- Modelled from the spec: the WireCodec `encode` operation is not part of the
repository snapshot (only the header type `websocket_msg_header_t` is).  Builds
the 8-byte header followed by the device-id bytes (whose length the header
records) and the payload bytes; rejects payloads that do not fit the 16-bit
`payload_len` field with `PayloadTooLarge` (payloads are never truncated) and
device ids that do not fit the 8-bit `device_id_len` field. -/
def encode (tag : MsgTag) (deviceId payload : List Nat) (seq : Nat) :
    Except CodecError (List Nat) :=
  if 65535 < payload.length then
    Except.error CodecError.payloadTooLarge
  else if 255 < deviceId.length then
    Except.error CodecError.deviceIdTooLong
  else
    Except.ok (headerBytes tag deviceId payload seq ++ deviceId ++ payload)

/-- Modelled from the spec: the WireCodec `decode` operation is not part of the
repository snapshot.  Fails with `FramingError` if the buffer is shorter than
the declared header + device-id + payload length or if the tag byte is
unrecognized; otherwise returns tag, device id, payload and sequence number. -/
def decode (bytes : List Nat) :
    Except CodecError (MsgTag × List Nat × List Nat × Nat) :=
  match bytes with
  | t :: dlen :: p0 :: p1 :: s0 :: s1 :: s2 :: s3 :: rest =>
    match tagOfByte t with
    | none => Except.error CodecError.framingError
    | some tag =>
      let plen := p0 + 256 * p1
      let seq := s0 + 256 * s1 + 65536 * s2 + 16777216 * s3
      if rest.length < dlen + plen then
        Except.error CodecError.framingError
      else
        Except.ok (tag, rest.take dlen, (rest.drop dlen).take plen, seq)
  | _ => Except.error CodecError.framingError

theorem tagOfByte_toByte (tag : MsgTag) : tagOfByte tag.toByte = some tag := by
  cases tag <;> rfl

/-- C1: round-trip of the wire codec.  For every tag in the seven-variant tag
set, device id of at most 255 bytes and payload of at most 65,535 bytes,
decoding the encoding recovers exactly the original tag, device id and
payload (the sequence number is recovered modulo 2^32, the width of its
field). -/
theorem C1_codec_roundtrip (tag : MsgTag) (deviceId payload : List Nat) (seq : Nat)
    (hd : deviceId.length ≤ 255) (hp : payload.length ≤ 65535) :
    (encode tag deviceId payload seq).bind decode =
      Except.ok (tag, deviceId, payload, seq % 4294967296) := by
  have h1 : ¬ 65535 < payload.length := Nat.not_lt.mpr hp
  have h2 : ¬ 255 < deviceId.length := Nat.not_lt.mpr hd
  rw [encode, if_neg h1, if_neg h2]
  show decode (headerBytes tag deviceId payload seq ++ deviceId ++ payload) = _
  have hshape :
      headerBytes tag deviceId payload seq ++ deviceId ++ payload =
        tag.toByte :: deviceId.length :: (payload.length % 256) ::
          (payload.length / 256 % 256) :: (seq % 256) :: (seq / 256 % 256) ::
          (seq / 65536 % 256) :: (seq / 16777216 % 256) :: (deviceId ++ payload) := by
    simp [headerBytes, le16, le32]
  rw [hshape, decode, tagOfByte_toByte]
  have hplen : payload.length % 256 + 256 * (payload.length / 256 % 256) =
      payload.length := by omega
  have hseq : seq % 256 + 256 * (seq / 256 % 256) + 65536 * (seq / 65536 % 256) +
      16777216 * (seq / 16777216 % 256) = seq % 4294967296 := by omega
  simp only [hplen, hseq]
  have hlen : ¬ (deviceId ++ payload).length < deviceId.length + payload.length := by
    simp [List.length_append]
  rw [if_neg hlen]
  rw [List.take_left, List.drop_left, List.take_length]

/-- C2: `encode` rejects every payload longer than 65,535 bytes with
`PayloadTooLarge` (never truncating it), and every successful encoding has a
payload that fits the 16-bit `payload_len` field. -/
theorem C2_payload_limit (tag : MsgTag) (deviceId payload : List Nat) (seq : Nat) :
    (65535 < payload.length →
       encode tag deviceId payload seq = Except.error CodecError.payloadTooLarge)
  ∧ (∀ bs, encode tag deviceId payload seq = Except.ok bs → payload.length ≤ 65535) := by
  constructor
  · intro h
    rw [encode, if_pos h]
  · intro bs h
    by_contra hlt
    rw [encode, if_pos (Nat.lt_of_not_le hlt)] at h
    exact Except.noConfusion h

/-- Witness for C1 at a concrete message. -/
theorem C1_codec_roundtrip_witness :
    (encode MsgTag.alert [10, 20] [1, 2, 3] 77).bind decode =
      Except.ok (MsgTag.alert, [10, 20], [1, 2, 3], 77) :=
  C1_codec_roundtrip MsgTag.alert [10, 20] [1, 2, 3] 77 (by decide) (by decide)

/-- Witness for C2 at a concrete overlong payload (65,536 bytes). -/
theorem C2_payload_limit_witness :
    encode MsgTag.csiData [] (List.replicate 65536 0) 0 =
      Except.error CodecError.payloadTooLarge :=
  (C2_payload_limit MsgTag.csiData [] (List.replicate 65536 0) 0).1
    (by rw [List.length_replicate]; omega)

/-! ### Batch CSI transmission (`websocket_telemetry_send_csi_batch`) -/

/-- A streaming CSI data packet, from `websocket_csi_packet_t`
(`websocket_telemetry.h:37-45`).  The `float` amplitude/phase arrays are
modelled by their serialized raw bytes. -/
structure CsiPacket where
  timestamp : Nat
  mac_address : List Nat
  rssi : Int
  channel : Nat
  amplitude_bytes : List Nat
  phase_bytes : List Nat
  deriving DecidableEq, Repr

/-- Little-endian bytes of an `n`-byte field, most generally. -/
def leBytes : Nat → Nat → List Nat
  | 0, _ => []
  | k + 1, n => n % 256 :: leBytes k (n / 256)

/-- Modelled from the spec: the per-sample serialization used inside a
`BatchCsi` message is not part of the repository snapshot; the fields follow
`websocket_csi_packet_t`. -/
def encodeCsiPacket (p : CsiPacket) : List Nat :=
  leBytes 8 p.timestamp ++ p.mac_address ++ [(p.rssi % 256).toNat] ++
    le16 p.channel ++ le16 p.amplitude_bytes.length ++ p.amplitude_bytes ++
    le16 p.phase_bytes.length ++ p.phase_bytes

/-- StreamChannel errors named by the specification. -/
inductive WsError where
  | invalidArgument
  | notConnected
  deriving DecidableEq, Repr

/-- A wire message assembled by the batch sender: a tag plus the serialized
samples it carries. -/
structure BatchMessage where
  msg_type : MsgTag
  encodedSamples : List (List Nat)
  deriving DecidableEq, Repr

/-- The maximum batch size, `WS_MAX_CSI_BATCH_SIZE`
(`websocket_telemetry.h:224`). -/
def WS_MAX_CSI_BATCH_SIZE : Nat := 50

/-- Modelled from the spec: the body of `websocket_telemetry_send_csi_batch`
(declared at `websocket_telemetry.h:134-135`) is not part of the repository
snapshot.  Assembles at most `WS_MAX_CSI_BATCH_SIZE` samples into one
`BatchCsi` message, rejects larger inputs with `InvalidArgument` (the caller
must pre-chunk), and sends nothing for an empty batch.  Returns the list of
wire messages produced by the call. -/
def websocket_telemetry_send_csi_batch (samples : List CsiPacket) :
    Except WsError (List BatchMessage) :=
  if WS_MAX_CSI_BATCH_SIZE < samples.length then
    Except.error WsError.invalidArgument
  else if samples.length = 0 then
    Except.ok []
  else
    Except.ok [⟨MsgTag.batchCsi, samples.map encodeCsiPacket⟩]

/-- C3: `sendBatch` with `N` samples, `1 ≤ N ≤ 50`, yields exactly one
`BatchCsi` message containing all `N` encoded samples; `N = 0` sends no
message; `N > 50` is rejected with `InvalidArgument` and sends nothing. -/
theorem C3_send_batch (samples : List CsiPacket) :
    (1 ≤ samples.length → samples.length ≤ 50 →
       websocket_telemetry_send_csi_batch samples =
         Except.ok [⟨MsgTag.batchCsi, samples.map encodeCsiPacket⟩] ∧
       (samples.map encodeCsiPacket).length = samples.length)
  ∧ (samples.length = 0 → websocket_telemetry_send_csi_batch samples = Except.ok [])
  ∧ (50 < samples.length →
       websocket_telemetry_send_csi_batch samples =
         Except.error WsError.invalidArgument) := by
  unfold websocket_telemetry_send_csi_batch WS_MAX_CSI_BATCH_SIZE
  refine ⟨?_, ?_, ?_⟩
  · intro h1 h50
    constructor
    · rw [if_neg (Nat.not_lt.mpr h50), if_neg (by omega)]
    · exact List.length_map _ _
  · intro h0
    rw [if_neg (by rw [h0]; decide), if_pos h0]
  · intro h
    rw [if_pos h]

/-- Witness for C3 at a concrete two-sample batch. -/
theorem C3_send_batch_witness :
    websocket_telemetry_send_csi_batch
        [⟨0, [1, 2, 3, 4, 5, 6], -40, 6, [9], []⟩,
         ⟨1, [1, 2, 3, 4, 5, 6], -41, 6, [8], []⟩] =
      Except.ok [⟨MsgTag.batchCsi,
        [encodeCsiPacket ⟨0, [1, 2, 3, 4, 5, 6], -40, 6, [9], []⟩,
         encodeCsiPacket ⟨1, [1, 2, 3, 4, 5, 6], -41, 6, [8], []⟩]⟩] :=
  ((C3_send_batch _).1 (by decide) (by decide)).1

/-! ### HttpChannel send with bounded retries (`http_telemetry`) -/

/-- HTTP telemetry configuration fields relevant to the retry loop, from
`http_telemetry_config_t` (`http_telemetry.h:23-30`). -/
structure HttpCfg where
  timeout_ms : Nat
  retry_count : Nat
  deriving DecidableEq, Repr

/-- The statistics counters of `http_telemetry_get_stats`
(`http_telemetry.h:146-154`). -/
structure HttpStatsC where
  requests_sent : Nat
  requests_failed : Nat
  bytes_sent : Nat
  deriving DecidableEq, Repr

/-- Result of an HttpChannel send call. -/
inductive HttpResult where
  | ok
  | transmissionFailed
  deriving DecidableEq, Repr

/-- Modelled from the spec: the synchronous attempt loop of the HttpChannel
send path is not part of the repository snapshot.  `outcome i` tells whether
attempt `i` succeeds; the loop stops at the first success and otherwise runs
all remaining attempts.  Returns the list of per-attempt timeouts used (one
entry per attempt performed, each bounded by `timeoutMs`) and whether any
attempt succeeded. -/
def http_attempts (outcome : Nat → Bool) (timeoutMs : Nat) :
    Nat → Nat → List Nat × Bool
  | _, 0 => ([], false)
  | i, Nat.succ k =>
    if outcome i then
      ([timeoutMs], true)
    else
      let r := http_attempts outcome timeoutMs (i + 1) k
      (timeoutMs :: r.1, r.2)

/-- Modelled from the spec: `send(endpoint, payload, retry_count)` of the
HttpChannel — a synchronous attempt loop bounded by `timeout_ms` per attempt
and `retry_count` total attempts; returns `TransmissionFailed` only after all
attempts are exhausted, incrementing the `requests_failed` counter exactly
once per call (not once per attempt). -/
def http_telemetry_send (cfg : HttpCfg) (outcome : Nat → Bool)
    (stats : HttpStatsC) : HttpResult × List Nat × HttpStatsC :=
  let r := http_attempts outcome cfg.timeout_ms 0 cfg.retry_count
  if r.2 then
    (HttpResult.ok, r.1, { stats with requests_sent := stats.requests_sent + 1 })
  else
    (HttpResult.transmissionFailed, r.1,
      { stats with requests_failed := stats.requests_failed + 1 })

theorem http_attempts_all_fail (outcome : Nat → Bool) (timeoutMs : Nat) :
    ∀ k i, (∀ j, j < k → outcome (i + j) = false) →
      http_attempts outcome timeoutMs i k = (List.replicate k timeoutMs, false) := by
  intro k
  induction k with
  | zero => intro i _; rfl
  | succ n ih =>
    intro i h
    have h0 : outcome i = false := by
      have := h 0 (Nat.succ_pos n)
      simpa using this
    have hrest : http_attempts outcome timeoutMs (i + 1) n =
        (List.replicate n timeoutMs, false) := by
      apply ih
      intro j hj
      have := h (j + 1) (by omega)
      simpa [Nat.add_assoc, Nat.add_comm 1 j] using this
    rw [http_attempts, if_neg (by rw [h0]; exact Bool.false_ne_true), hrest]
    rfl

/-- C4: an HttpChannel send against an endpoint where every attempt times out
performs exactly `retry_count` attempts, each invoked with the configured
per-attempt timeout `timeout_ms`; it returns `TransmissionFailed` only after
all attempts are exhausted and increments `requests_failed` by exactly one for
the whole call (not once per attempt), leaving `requests_sent` and
`bytes_sent` unchanged. -/
theorem C4_http_retry (cfg : HttpCfg) (outcome : Nat → Bool) (stats : HttpStatsC)
    (hall : ∀ i, i < cfg.retry_count → outcome i = false) :
    (http_telemetry_send cfg outcome stats).1 = HttpResult.transmissionFailed
  ∧ (http_telemetry_send cfg outcome stats).2.1.length = cfg.retry_count
  ∧ (∀ t ∈ (http_telemetry_send cfg outcome stats).2.1, t = cfg.timeout_ms)
  ∧ (http_telemetry_send cfg outcome stats).2.2.requests_failed =
      stats.requests_failed + 1
  ∧ (http_telemetry_send cfg outcome stats).2.2.requests_sent =
      stats.requests_sent
  ∧ (http_telemetry_send cfg outcome stats).2.2.bytes_sent = stats.bytes_sent := by
  have hrun : http_attempts outcome cfg.timeout_ms 0 cfg.retry_count =
      (List.replicate cfg.retry_count cfg.timeout_ms, false) := by
    apply http_attempts_all_fail
    intro j hj
    simpa using hall j (by omega)
  rw [http_telemetry_send, hrun]
  refine ⟨rfl, ?_, ?_, rfl, rfl, rfl⟩
  · exact List.length_replicate _ _
  · intro t ht
    exact List.eq_of_mem_replicate ht

/-- Witness for C4: `retry_count = 3`, `timeout_ms = 100`, all attempts
failing. -/
theorem C4_http_retry_witness :
    (http_telemetry_send ⟨100, 3⟩ (fun _ => false) ⟨7, 2, 9⟩).1 =
        HttpResult.transmissionFailed
  ∧ (http_telemetry_send ⟨100, 3⟩ (fun _ => false) ⟨7, 2, 9⟩).2.1.length = 3
  ∧ (∀ t ∈ (http_telemetry_send ⟨100, 3⟩ (fun _ => false) ⟨7, 2, 9⟩).2.1, t = 100)
  ∧ (http_telemetry_send ⟨100, 3⟩ (fun _ => false) ⟨7, 2, 9⟩).2.2.requests_failed = 3
  ∧ (http_telemetry_send ⟨100, 3⟩ (fun _ => false) ⟨7, 2, 9⟩).2.2.requests_sent = 7
  ∧ (http_telemetry_send ⟨100, 3⟩ (fun _ => false) ⟨7, 2, 9⟩).2.2.bytes_sent = 9 := by
  have h := C4_http_retry ⟨100, 3⟩ (fun _ => false) ⟨7, 2, 9⟩ (fun i _ => rfl)
  exact h

/-! ### Supervisor loop (`app_main_task`, `main.c:200-316`)

One iteration of the `while (1)` loop is modelled as a function from the
environment observed during that iteration (collaborator results: collector
queue, NTP clock, MQTT connection, free heap) to the list of externally
visible actions the iteration performs, in order, together with the updates
to the loop's counters. -/

/-- A CSI sample as handled by the loop (`csi_data_t`): the timestamp the
collector produced plus an opaque identifier standing for the rest of the
sample data. -/
structure CsiSample where
  timestamp : Nat
  raw : Nat
  deriving DecidableEq, Repr

/-- Collaborator results observed by one loop iteration of `app_main_task`. -/
structure Env where
  collectorRunning : Bool      -- `csi_collector_is_running()`
  csiAvailable : Option CsiSample  -- `csi_collector_get_data` within the 100 ms wait
  ntpSynced : Bool             -- `ntp_sync_is_synchronized()`
  ntpTime : Option Nat         -- `ntp_sync_get_time` (`some` iff it returns `ESP_OK`),
                               -- value in microseconds
  mqttConnected : Bool         -- `mqtt_client_is_connected()`
  publishResult : Bool         -- `mqtt_client_publish_csi_data` returns `ESP_OK`
  freeHeap : Nat               -- `esp_get_free_heap_size()`
  deriving DecidableEq, Repr

/-- Externally visible actions of one loop iteration, in program order. -/
inductive SupAction where
  | popCsi (timeoutMs : Nat)               -- `csi_collector_get_data(&d, pdMS_TO_TICKS(t))`
  | publishCsi (s : CsiSample)             -- `mqtt_client_publish_csi_data(&d)`
  | freeData (s : CsiSample)               -- `csi_collector_free_data(&d)`
  | publishAlert (level component message : String)  -- `mqtt_publish_alert(...)`
  | delayMs (n : Nat)                      -- `vTaskDelay(pdMS_TO_TICKS(n))`
  | restart                                -- `esp_restart()`
  deriving DecidableEq, Repr

/-- Counters maintained by the loop (`main.c:192-195`), restricted to those
the CSI branch touches. -/
structure LoopCounters where
  csi_data_count : Nat
  mqtt_publish_count : Nat
  mqtt_publish_errors : Nat
  deriving DecidableEq, Repr

/-- Timestamp correction (`main.c:210-216`): the sample's timestamp is
overwritten with the NTP-corrected value only when
`ntp_sync_is_synchronized()` holds *and* `ntp_sync_get_time` succeeds. -/
def correctedSample (env : Env) (s : CsiSample) : CsiSample :=
  if env.ntpSynced then
    match env.ntpTime with
    | some t => { s with timestamp := t }
    | none => s
  else s

/-- The CSI-processing branch of one loop iteration (`main.c:204-237`):
drain at most one sample with a 100 ms bounded wait, correct its timestamp,
publish it to MQTT only when connected, and free it exactly once. -/
def csiPhase (env : Env) : List SupAction × LoopCounters :=
  if env.collectorRunning then
    match env.csiAvailable with
    | some s =>
      let s2 := correctedSample env s
      if env.mqttConnected then
        if env.publishResult then
          ([SupAction.popCsi 100, SupAction.publishCsi s2, SupAction.freeData s2], ⟨1, 1, 0⟩)
        else
          ([SupAction.popCsi 100, SupAction.publishCsi s2, SupAction.freeData s2], ⟨1, 0, 1⟩)
      else
        ([SupAction.popCsi 100, SupAction.freeData s2], ⟨1, 0, 0⟩)
    | none => ([SupAction.popCsi 100], ⟨0, 0, 0⟩)
  else ([], ⟨0, 0, 0⟩)

/-- The low-memory health guard at the end of each iteration
(`main.c:306-313`): below 10,000 free heap bytes, publish one alert (note the
level string is `"ERROR"`), wait 5 s, and restart. -/
def healthPhase (freeHeap : Nat) : List SupAction :=
  if freeHeap < 10000 then
    [SupAction.publishAlert "ERROR" "SYSTEM" "Critical low memory",
     SupAction.delayMs 5000, SupAction.restart]
  else []

/-- Actions of one full loop iteration relevant to the claims: the CSI branch
followed by the health guard.  (The 30 s statistics block, the 5 min metrics
publish and the 5 min OTA check between them perform no action in this action
vocabulary.) -/
def tick (env : Env) : List SupAction :=
  (csiPhase env).1 ++ healthPhase env.freeHeap

/-- A run of the supervisor over successive iteration environments;
`esp_restart()` never returns, so a run ends with the iteration that emits
`SupAction.restart`. -/
def runTicks : List Env → List SupAction
  | [] => []
  | e :: rest =>
    let acts := tick e
    if SupAction.restart ∈ acts then acts else acts ++ runTicks rest

/-- Recognizer for `esp_restart()` actions. -/
def isRestartAct : SupAction → Bool
  | SupAction.restart => true
  | _ => false

/-- Recognizer for `mqtt_publish_alert` actions. -/
def isAlertAct : SupAction → Bool
  | SupAction.publishAlert _ _ _ => true
  | _ => false

/-- Recognizer for `csi_collector_get_data` actions. -/
def isPopAct : SupAction → Bool
  | SupAction.popCsi _ => true
  | _ => false

/-- Recognizer for `mqtt_client_publish_csi_data` actions. -/
def isPublishAct : SupAction → Bool
  | SupAction.publishCsi _ => true
  | _ => false

/-- Recognizer for `csi_collector_free_data` actions. -/
def isFreeAct : SupAction → Bool
  | SupAction.freeData _ => true
  | _ => false

theorem csiPhase_filter_restart (env : Env) :
    (csiPhase env).1.filter isRestartAct = [] := by
  rcases env with ⟨cr, avail, sync, nt, mc, pr, heap⟩
  cases cr <;> cases avail <;> cases mc <;> cases pr <;> rfl

theorem csiPhase_filter_alert (env : Env) :
    (csiPhase env).1.filter isAlertAct = [] := by
  rcases env with ⟨cr, avail, sync, nt, mc, pr, heap⟩
  cases cr <;> cases avail <;> cases mc <;> cases pr <;> rfl

theorem csiPhase_filter_pop (env : Env) :
    (csiPhase env).1.filter isPopAct =
      if env.collectorRunning then [SupAction.popCsi 100] else [] := by
  rcases env with ⟨cr, avail, sync, nt, mc, pr, heap⟩
  cases cr <;> cases avail <;> cases mc <;> cases pr <;> rfl

theorem healthPhase_filter_pop (h : Nat) : (healthPhase h).filter isPopAct = [] := by
  unfold healthPhase
  split <;> rfl

theorem tick_filter_pop (env : Env) :
    (tick env).filter isPopAct =
      if env.collectorRunning then [SupAction.popCsi 100] else [] := by
  unfold tick
  rw [List.filter_append, csiPhase_filter_pop, healthPhase_filter_pop,
    List.append_nil]

theorem restart_mem_tick (env : Env) :
    SupAction.restart ∈ tick env ↔ env.freeHeap < 10000 := by
  unfold tick healthPhase
  constructor
  · intro h
    rcases List.mem_append.mp h with h1 | h2
    · exfalso
      have : SupAction.restart ∈ (csiPhase env).1.filter isRestartAct :=
        List.mem_filter.mpr ⟨h1, rfl⟩
      rw [csiPhase_filter_restart] at this
      exact absurd this (List.not_mem_nil _)
    · by_contra hge
      rw [if_neg hge] at h2
      exact absurd h2 (List.not_mem_nil _)
  · intro h
    refine List.mem_append.mpr (Or.inr ?_)
    rw [if_pos h]
    simp

theorem tick_filter_restart_of_not_low (env : Env) (h : ¬ env.freeHeap < 10000) :
    (tick env).filter isRestartAct = [] := by
  unfold tick healthPhase
  rw [if_neg h, List.append_nil, csiPhase_filter_restart]

theorem tick_filter_alert_of_not_low (env : Env) (h : ¬ env.freeHeap < 10000) :
    (tick env).filter isAlertAct = [] := by
  unfold tick healthPhase
  rw [if_neg h, List.append_nil, csiPhase_filter_alert]

/-- Concrete iteration environment with critically low free heap. -/
def envLow : Env :=
  { collectorRunning := false, csiAvailable := none, ntpSynced := false,
    ntpTime := none, mqttConnected := false, publishResult := false,
    freeHeap := 9999 }

/-- Counterexample to C5 as stated: at 9,999 free heap bytes the run triggers
the restart, but the one alert the code attempts has level `"ERROR"`
(`main.c:308`), so no critical-level alert attempt precedes the restart. -/
theorem C5_counterexample :
    SupAction.restart ∈ runTicks [envLow] ∧
    (runTicks [envLow]).all
      (fun a => match a with
        | SupAction.publishAlert lvl _ _ => !(lvl == "critical")
        | _ => true) = true := by
  decide

/-- C5 (amended): on the first supervisor iteration in which free heap is
below 10,000 bytes, the run performs exactly one best-effort alert attempt —
with level string `"ERROR"` rather than the claimed critical level — then a
fixed 5 s grace delay, then exactly one device restart, which ends the run;
no earlier iteration performed any alert attempt or restart. -/
theorem C5_low_heap_restart (envs : List Env)
    (h : ∃ e ∈ envs, e.freeHeap < 10000) :
    ∃ pre, runTicks envs = pre ++
        [SupAction.publishAlert "ERROR" "SYSTEM" "Critical low memory",
         SupAction.delayMs 5000, SupAction.restart] ∧
      pre.filter isRestartAct = [] ∧ pre.filter isAlertAct = [] := by
  induction envs with
  | nil =>
    rcases h with ⟨e, he, _⟩
    exact absurd he (List.not_mem_nil e)
  | cons e rest ih =>
    by_cases hlow : e.freeHeap < 10000
    · refine ⟨(csiPhase e).1, ?_, csiPhase_filter_restart e, csiPhase_filter_alert e⟩
      rw [runTicks]
      simp only [if_pos ((restart_mem_tick e).mpr hlow)]
      unfold tick healthPhase
      rw [if_pos hlow]
    · have hnr : SupAction.restart ∉ tick e := fun hmem =>
        hlow ((restart_mem_tick e).mp hmem)
      have h2 : ∃ x ∈ rest, x.freeHeap < 10000 := by
        rcases h with ⟨x, hx, hxl⟩
        rcases List.mem_cons.mp hx with rfl | hx2
        · exact absurd hxl hlow
        · exact ⟨x, hx2, hxl⟩
      rcases ih h2 with ⟨pre, hpre, hprer, hprea⟩
      refine ⟨tick e ++ pre, ?_, ?_, ?_⟩
      · rw [runTicks]
        simp only [if_neg hnr]
        rw [hpre, List.append_assoc]
      · rw [List.filter_append, hprer, tick_filter_restart_of_not_low e hlow,
          List.nil_append]
      · rw [List.filter_append, hprea, tick_filter_alert_of_not_low e hlow,
          List.nil_append]

/-- Witness for C5 (amended) on a one-iteration run at 9,999 free heap
bytes. -/
theorem C5_low_heap_restart_witness :
    ∃ pre, runTicks [envLow] = pre ++
        [SupAction.publishAlert "ERROR" "SYSTEM" "Critical low memory",
         SupAction.delayMs 5000, SupAction.restart] ∧
      pre.filter isRestartAct = [] ∧ pre.filter isAlertAct = [] :=
  C5_low_heap_restart [envLow] ⟨envLow, by simp, by decide⟩

/-- C6 (amended): each supervisor iteration performs at most one CSI-queue
pop, always with the 100 ms bounded wait; the drained sample's timestamp is
overwritten with the corrected value exactly when the clock reports
synchronized *and* the corrected-time read succeeds — if the clock is
unsynchronized, or the time read fails, the sample keeps the collector's
timestamp. -/
theorem C6_drain_and_timestamp (env : Env) (s : CsiSample) :
    ((tick env).filter isPopAct).length ≤ 1
  ∧ (∀ t, SupAction.popCsi t ∈ tick env → t = 100)
  ∧ (env.ntpSynced = false → correctedSample env s = s)
  ∧ (env.ntpTime = none → correctedSample env s = s)
  ∧ (∀ t, env.ntpSynced = true → env.ntpTime = some t →
       correctedSample env s = { s with timestamp := t }) := by
  refine ⟨?_, ?_, ?_, ?_, ?_⟩
  · rw [tick_filter_pop]
    split <;> simp
  · intro t ht
    have hmem : SupAction.popCsi t ∈ (tick env).filter isPopAct :=
      List.mem_filter.mpr ⟨ht, rfl⟩
    rw [tick_filter_pop] at hmem
    split at hmem
    · rcases List.mem_singleton.mp hmem with h
      exact (SupAction.popCsi.injEq t 100).mp h
    · exact absurd hmem (List.not_mem_nil _)
  · intro h
    unfold correctedSample
    rw [h]
    rfl
  · intro h
    unfold correctedSample
    rw [h]
    split <;> rfl
  · intro t hs ht
    unfold correctedSample
    rw [hs, ht]
    rfl

/-- Concrete iteration environment: clock synchronized, time read succeeds
with corrected value 42. -/
def envC6 : Env :=
  { collectorRunning := true, csiAvailable := some ⟨5, 0⟩, ntpSynced := true,
    ntpTime := some 42, mqttConnected := false, publishResult := false,
    freeHeap := 20000 }

/-- Witness for C6 (amended): corrected value 42 replaces the collector
timestamp 5, and the iteration pops at most once. -/
theorem C6_drain_and_timestamp_witness :
    correctedSample envC6 ⟨5, 0⟩ = ⟨42, 0⟩ ∧
    ((tick envC6).filter isPopAct).length ≤ 1 :=
  ⟨(C6_drain_and_timestamp envC6 ⟨5, 0⟩).2.2.2.2 42 rfl rfl,
   (C6_drain_and_timestamp envC6 ⟨5, 0⟩).1⟩

/-- Concrete iteration environment: clock reports synchronized but the
corrected-time read fails (`ntp_sync_get_time` not `ESP_OK`). -/
def envSyncNoTime : Env :=
  { collectorRunning := true, csiAvailable := some ⟨5, 0⟩, ntpSynced := true,
    ntpTime := none, mqttConnected := false, publishResult := false,
    freeHeap := 20000 }

/-- Counterexample to C6 as stated: the clock reports synchronized, yet the
drained sample keeps the collector's timestamp because the corrected-time
read failed (`main.c:211-215` requires both conditions). -/
theorem C6_counterexample :
    envSyncNoTime.ntpSynced = true ∧
    correctedSample envSyncNoTime ⟨5, 0⟩ = ⟨5, 0⟩ := by
  decide

/-- C7: a drained CSI sample is published to the telemetry channel only when
that channel is connected; at most one publish attempt is ever made for it
(a failed publish increments the error counter by exactly one and is not
re-attempted, and nothing is queued for retry); and in every case — success,
failure, or drop — the sample is released back to the collector exactly once
per pop. -/
theorem C7_sample_routing (env : Env) (s : CsiSample)
    (hrun : env.collectorRunning = true) (havail : env.csiAvailable = some s) :
    ((csiPhase env).1.filter isPublishAct).length =
        (if env.mqttConnected then 1 else 0)
  ∧ (∀ x, SupAction.publishCsi x ∈ (csiPhase env).1 → env.mqttConnected = true)
  ∧ ((csiPhase env).1.filter isFreeAct).length = 1
  ∧ (csiPhase env).2.mqtt_publish_errors =
      (if env.mqttConnected && !env.publishResult then 1 else 0)
  ∧ (csiPhase env).2.mqtt_publish_count =
      (if env.mqttConnected && env.publishResult then 1 else 0)
  ∧ (csiPhase env).2.csi_data_count = 1 := by
  rcases env with ⟨cr, avail, sync, nt, mc, pr, heap⟩
  simp only at hrun havail
  subst hrun
  subst havail
  cases mc <;> cases pr <;>
    refine ⟨rfl, ?_, rfl, rfl, rfl, rfl⟩ <;>
    intro x hx <;>
    first
      | rfl
      | (exfalso; simp [csiPhase] at hx)

/-- Concrete iteration environment: connected channel, failing publish. -/
def envC7 : Env :=
  { collectorRunning := true, csiAvailable := some ⟨5, 1⟩, ntpSynced := false,
    ntpTime := none, mqttConnected := true, publishResult := false,
    freeHeap := 20000 }

/-- Witness for C7: with a connected channel and a failing publish, exactly
one publish attempt, one error increment, one release. -/
theorem C7_sample_routing_witness :
    ((csiPhase envC7).1.filter isPublishAct).length =
        (if envC7.mqttConnected then 1 else 0)
  ∧ (∀ x, SupAction.publishCsi x ∈ (csiPhase envC7).1 → envC7.mqttConnected = true)
  ∧ ((csiPhase envC7).1.filter isFreeAct).length = 1
  ∧ (csiPhase envC7).2.mqtt_publish_errors =
      (if envC7.mqttConnected && !envC7.publishResult then 1 else 0)
  ∧ (csiPhase envC7).2.mqtt_publish_count =
      (if envC7.mqttConnected && envC7.publishResult then 1 else 0)
  ∧ (csiPhase envC7).2.csi_data_count = 1 :=
  C7_sample_routing envC7 ⟨5, 1⟩ rfl rfl

/-! ### Remote configuration and command handlers (`remote_config.c`)

cJSON values are modelled by `Json`; C strings (including cJSON
`valuestring`) by `List Char`.  The capacities of the fixed-size `char`
arrays of `app_config_t` (whose definition is not part of the snapshot) are
kept as parameters `AppCaps`. -/

/-- A cJSON value. -/
inductive Json where
  | str (s : List Char)
  | num (n : Int)
  | jbool (b : Bool)
  | obj (fields : List (String × Json))
  | null

/-- Field lookup within a JSON object. -/
def lookupField : List (String × Json) → String → Option Json
  | [], _ => none
  | (k, v) :: rest, key => if k = key then some v else lookupField rest key

/-- `cJSON_GetObjectItem`: returns the named member of an object, `none` on a
missing member or a non-object value. -/
def cJSON_GetObjectItem : Json → String → Option Json
  | Json.obj fields, key => lookupField fields key
  | _, _ => none

/-- `strncpy(dst, src, sizeof(dst) - 1)` into a `cap`-byte field whose final
byte remains NUL: keeps the first `cap - 1` characters, silently truncating
longer strings. -/
def strncpyField (cap : Nat) (src : List Char) : List Char := src.take (cap - 1)

/-- The `app_config_t` fields touched by `remote_config.c`. -/
structure AppCfg where
  device_name : List Char
  wifi_ssid : List Char
  wifi_password : List Char
  mqtt_broker_url : List Char
  mqtt_port : Int
  deriving DecidableEq, Repr

/-- Capacities (`sizeof`) of the fixed-size string fields of `app_config_t`. -/
structure AppCaps where
  device_name_cap : Nat
  ssid_cap : Nat
  password_cap : Nat
  broker_url_cap : Nat
  deriving DecidableEq, Repr

/-- Outcome of `handle_node_settings` (`remote_config.c:106-154`).
`restarted` means `esp_restart()` was reached (after the recorded grace delay)
and the function never returned. -/
inductive NodeResult where
  | failed (e : EspErr)
  | saved (e : EspErr) (cfg : AppCfg)
  | restarted (cfg : AppCfg) (graceMs : Nat)
  deriving DecidableEq, Repr

/-- The `node_name` update of `handle_node_settings`
(`remote_config.c:123-126`): a present string is copied into `device_name`
with a bounded copy. -/
def nodeNameStep (caps : AppCaps) (cfg0 : AppCfg) (config : Json) : AppCfg :=
  match cJSON_GetObjectItem config "node_name" with
  | some (Json.str s) =>
    { cfg0 with device_name := strncpyField caps.device_name_cap s }
  | _ => cfg0

/-- The WiFi credential updates of `handle_node_settings`
(`remote_config.c:131-141`): present `ssid` / `password` strings are copied
with bounded copies; either sets `restart_required`. -/
def wifiFields (caps : AppCaps) (cfg1 : AppCfg) (wifi : Json) : AppCfg × Bool :=
  let s1 :=
    match cJSON_GetObjectItem wifi "ssid" with
    | some (Json.str s) =>
      ({ cfg1 with wifi_ssid := strncpyField caps.ssid_cap s }, true)
    | _ => (cfg1, false)
  match cJSON_GetObjectItem wifi "password" with
  | some (Json.str s) =>
    ({ s1.1 with wifi_password := strncpyField caps.password_cap s }, true)
  | _ => s1

/-- The `wifi` section dispatch of `handle_node_settings`
(`remote_config.c:129-142`). -/
def wifiStep (caps : AppCaps) (cfg1 : AppCfg) (config : Json) : AppCfg × Bool :=
  match cJSON_GetObjectItem config "wifi" with
  | some wifi => wifiFields caps cfg1 wifi
  | none => (cfg1, false)

/-- `handle_node_settings` (`remote_config.c:106-154`): loads the
configuration (`loadRes`), applies the `node_name` and `wifi` updates, saves
(`saveRes` is the collaborator's result), and — when the save succeeded and
WiFi settings were touched — delays 5000 ms and restarts the device. -/
def handle_node_settings (caps : AppCaps) (loadRes : Except EspErr AppCfg)
    (saveRes : EspErr) (config : Json) : NodeResult :=
  match loadRes with
  | Except.error e => NodeResult.failed e
  | Except.ok cfg0 =>
    let step := wifiStep caps (nodeNameStep caps cfg0 config) config
    if saveRes = EspErr.ok ∧ step.2 = true then
      NodeResult.restarted step.1 5000
    else
      NodeResult.saved saveRes step.1

/-- Outcome of `handle_mqtt_config` (`remote_config.c:64-101`). -/
inductive MqttResult where
  | failed (e : EspErr)
  | applied (e : EspErr) (cfg : AppCfg)
  deriving DecidableEq, Repr

/-- `handle_mqtt_config` (`remote_config.c:64-101`): loads the configuration,
copies a present `broker_url` string with a bounded copy and a present
numeric `port`, then saves; on a successful save it also restarts the MQTT
client (an MQTT-client restart, not a device restart, so the handler always
returns).  The topic-string field follows the same bounded-copy pattern and
is elided. -/
def handle_mqtt_config (caps : AppCaps) (loadRes : Except EspErr AppCfg)
    (saveRes : EspErr) (config : Json) : MqttResult :=
  match loadRes with
  | Except.error e => MqttResult.failed e
  | Except.ok cfg0 =>
    let cfg1 :=
      match cJSON_GetObjectItem config "broker_url" with
      | some (Json.str s) =>
        { cfg0 with mqtt_broker_url := strncpyField caps.broker_url_cap s }
      | _ => cfg0
    let cfg2 :=
      match cJSON_GetObjectItem config "port" with
      | some (Json.num n) => { cfg1 with mqtt_port := n }
      | _ => cfg1
    MqttResult.applied saveRes cfg2

/-- The error code a `handle_mqtt_config` outcome stands for. -/
def mqttErrOf : MqttResult → EspErr
  | MqttResult.failed e => e
  | MqttResult.applied e _ => e

/-- Externally visible actions of `remote_config_update_handler`. -/
inductive CfgAction where
  | publishAck (status : List Char)   -- `mqtt_client_publish` on `devices/<name>/config/ack`
  | delayMs (n : Nat)                 -- `vTaskDelay(pdMS_TO_TICKS(n))`
  | deviceRestart                     -- `esp_restart()`
  deriving DecidableEq, Repr

/-- Outcome of `remote_config_update_handler`: `restarted` means control never
returned because `esp_restart()` was reached inside `handle_node_settings`. -/
inductive UpdOutcome where
  | invalidArg
  | completed (err : EspErr)
  | restarted
  deriving DecidableEq, Repr

/-- Collaborator results observed by one `remote_config_update_handler`
call. -/
structure UpdEnv where
  caps : AppCaps
  loadRes : Except EspErr AppCfg   -- `app_config_load`
  saveRes : EspErr                 -- `app_config_save`
  csiRes : EspErr                  -- result of `handle_csi_config` (CSI collector collaborator)

/-- The acknowledgment block at the end of `remote_config_update_handler`
(`remote_config.c:194-211`): when the configuration loads, publish a
`success`/`failed` ack for the accumulated error code. -/
def ackPhase (env : UpdEnv) (err : EspErr) : UpdOutcome × List CfgAction :=
  match env.loadRes with
  | Except.ok _ =>
    (UpdOutcome.completed err,
     [CfgAction.publishAck
        (if err = EspErr.ok then "success".toList else "failed".toList)])
  | Except.error _ => (UpdOutcome.completed err, [])

/-- `remote_config_update_handler` (`remote_config.c:159-214`): processes the
`csi`, `mqtt` and `node` sections in order (each present section overwrites
the running error code), then publishes the acknowledgment — unless
`handle_node_settings` restarted the device, in which case control never
reaches the acknowledgment. -/
def remote_config_update_handler (env : UpdEnv) (config : Option Json) :
    UpdOutcome × List CfgAction :=
  match config with
  | none => (UpdOutcome.invalidArg, [])
  | some cfg =>
    let err1 :=
      match cJSON_GetObjectItem cfg "csi" with
      | some _ => env.csiRes
      | none => EspErr.ok
    let err2 :=
      match cJSON_GetObjectItem cfg "mqtt" with
      | some m => mqttErrOf (handle_mqtt_config env.caps env.loadRes env.saveRes m)
      | none => err1
    match cJSON_GetObjectItem cfg "node" with
    | some node =>
      match handle_node_settings env.caps env.loadRes env.saveRes node with
      | NodeResult.restarted _ g =>
        (UpdOutcome.restarted, [CfgAction.delayMs g, CfgAction.deviceRestart])
      | NodeResult.failed e => ackPhase env e
      | NodeResult.saved e _ => ackPhase env e
    | none => ackPhase env err2

/-- Outcome of `remote_command_handler`: `ret` is a returned error code; the
other variants mean `esp_restart()` was reached and the call never
returned. -/
inductive CmdOutcome where
  | ret (e : EspErr)
  | restartedAfter (delayMs : Nat)
  | factoryReset
  deriving DecidableEq, Repr

/-- Collaborator results observed by one `remote_command_handler` call. -/
structure CmdEnv where
  csiStartRes : EspErr   -- `csi_collector_start()`
  csiStopRes : EspErr    -- `csi_collector_stop()`
  deriving DecidableEq, Repr

/-- `remote_command_handler` (`remote_config.c:219-264`): rejects a null
`params` or a missing/non-string `command` member with
`ESP_ERR_INVALID_ARG`; dispatches the six known commands (`restart`,
`start_csi`, `stop_csi`, `calibrate`, `factory_reset`, `get_status`); any
other command yields `ESP_ERR_NOT_SUPPORTED`. -/
def remote_command_handler (env : CmdEnv) (params : Option Json) : CmdOutcome :=
  match params with
  | none => CmdOutcome.ret EspErr.errInvalidArg
  | some p =>
    match cJSON_GetObjectItem p "command" with
    | some (Json.str command) =>
      if command = "restart".toList then CmdOutcome.restartedAfter 2000
      else if command = "start_csi".toList then CmdOutcome.ret env.csiStartRes
      else if command = "stop_csi".toList then CmdOutcome.ret env.csiStopRes
      else if command = "calibrate".toList then CmdOutcome.ret EspErr.ok
      else if command = "factory_reset".toList then CmdOutcome.factoryReset
      else if command = "get_status".toList then CmdOutcome.ret EspErr.ok
      else CmdOutcome.ret EspErr.errNotSupported
    | some _ => CmdOutcome.ret EspErr.errInvalidArg
    | none => CmdOutcome.ret EspErr.errInvalidArg

/-- A node-settings JSON section carrying a node name and both WiFi
credentials. -/
def nodeJsonAll (name ssid pw : List Char) : Json :=
  Json.obj [("node_name", Json.str name),
            ("wifi", Json.obj [("ssid", Json.str ssid),
                               ("password", Json.str pw)])]

/-- C8: configuration strings longer than their fixed-capacity destination
fields are silently truncated by the bounded copies of
`handle_node_settings`: each stored field is the source's first `cap - 1`
characters (strictly shorter than the source), and the handler's outcome is
exactly what the save collaborator dictates — lengths never raise an error
and no configuration error is produced. -/
theorem C8_silent_truncation (caps : AppCaps) (cfg0 : AppCfg) (saveRes : EspErr)
    (name ssid pw : List Char)
    (hname : caps.device_name_cap - 1 < name.length)
    (hssid : caps.ssid_cap - 1 < ssid.length)
    (hpw : caps.password_cap - 1 < pw.length) :
    ∃ cfgT : AppCfg,
      handle_node_settings caps (Except.ok cfg0) saveRes (nodeJsonAll name ssid pw) =
        (if saveRes = EspErr.ok then NodeResult.restarted cfgT 5000
         else NodeResult.saved saveRes cfgT)
      ∧ cfgT.device_name = name.take (caps.device_name_cap - 1)
      ∧ cfgT.device_name.length = caps.device_name_cap - 1
      ∧ cfgT.device_name.length < name.length
      ∧ cfgT.wifi_ssid = ssid.take (caps.ssid_cap - 1)
      ∧ cfgT.wifi_ssid.length = caps.ssid_cap - 1
      ∧ cfgT.wifi_password = pw.take (caps.password_cap - 1)
      ∧ cfgT.wifi_password.length = caps.password_cap - 1 := by
  refine ⟨{ cfg0 with
      device_name := name.take (caps.device_name_cap - 1),
      wifi_ssid := ssid.take (caps.ssid_cap - 1),
      wifi_password := pw.take (caps.password_cap - 1) }, ?_, rfl, ?_, ?_, rfl, ?_, rfl, ?_⟩
  · have hstep : wifiStep caps (nodeNameStep caps cfg0 (nodeJsonAll name ssid pw))
        (nodeJsonAll name ssid pw) =
        ({ cfg0 with
            device_name := name.take (caps.device_name_cap - 1),
            wifi_ssid := ssid.take (caps.ssid_cap - 1),
            wifi_password := pw.take (caps.password_cap - 1) }, true) := rfl
    unfold handle_node_settings
    dsimp only
    rw [hstep]
    by_cases h : saveRes = EspErr.ok
    · rw [if_pos ⟨h, rfl⟩, if_pos h]
    · rw [if_neg (fun hc => h hc.1), if_neg h]
  · simp only [List.length_take]
    omega
  · simp only [List.length_take]
    omega
  · simp only [List.length_take]
    omega
  · simp only [List.length_take]
    omega

/-- Witness for C8 at concrete capacities (4 bytes each) and longer concrete
strings. -/
theorem C8_silent_truncation_witness :
    ∃ cfgT : AppCfg,
      handle_node_settings ⟨4, 4, 4, 8⟩ (Except.ok ⟨[], [], [], [], 0⟩) EspErr.fail
          (nodeJsonAll "longname".toList "longssid".toList "longpass".toList) =
        (if EspErr.fail = EspErr.ok then NodeResult.restarted cfgT 5000
         else NodeResult.saved EspErr.fail cfgT)
      ∧ cfgT.device_name = "longname".toList.take 3
      ∧ cfgT.device_name.length = 3
      ∧ cfgT.device_name.length < "longname".toList.length
      ∧ cfgT.wifi_ssid = "longssid".toList.take 3
      ∧ cfgT.wifi_ssid.length = 3
      ∧ cfgT.wifi_password = "longpass".toList.take 3
      ∧ cfgT.wifi_password.length = 3 :=
  C8_silent_truncation ⟨4, 4, 4, 8⟩ ⟨[], [], [], [], 0⟩ EspErr.fail
    "longname".toList "longssid".toList "longpass".toList
    (by decide) (by decide) (by decide)

/-- C9: the remote command handler returns `ESP_ERR_INVALID_ARG` for a null
`params` or a missing or non-string `command` member; returns
`ESP_ERR_NOT_SUPPORTED` for every command string outside
{`restart`, `start_csi`, `stop_csi`, `calibrate`, `factory_reset`,
`get_status`}; returns exactly the collector collaborator's result for
`start_csi`/`stop_csi`; and returns `ESP_OK` for `calibrate` and
`get_status`. -/
theorem C9_command_dispatch (env : CmdEnv) :
    remote_command_handler env none = CmdOutcome.ret EspErr.errInvalidArg
  ∧ (∀ p, cJSON_GetObjectItem p "command" = none →
       remote_command_handler env (some p) = CmdOutcome.ret EspErr.errInvalidArg)
  ∧ (∀ p j, cJSON_GetObjectItem p "command" = some j → (∀ s, j ≠ Json.str s) →
       remote_command_handler env (some p) = CmdOutcome.ret EspErr.errInvalidArg)
  ∧ (∀ p s, cJSON_GetObjectItem p "command" = some (Json.str s) →
       s ∉ ["restart".toList, "start_csi".toList, "stop_csi".toList,
            "calibrate".toList, "factory_reset".toList, "get_status".toList] →
       remote_command_handler env (some p) = CmdOutcome.ret EspErr.errNotSupported)
  ∧ (∀ p, cJSON_GetObjectItem p "command" = some (Json.str "start_csi".toList) →
       remote_command_handler env (some p) = CmdOutcome.ret env.csiStartRes)
  ∧ (∀ p, cJSON_GetObjectItem p "command" = some (Json.str "stop_csi".toList) →
       remote_command_handler env (some p) = CmdOutcome.ret env.csiStopRes)
  ∧ (∀ p, cJSON_GetObjectItem p "command" = some (Json.str "calibrate".toList) →
       remote_command_handler env (some p) = CmdOutcome.ret EspErr.ok)
  ∧ (∀ p, cJSON_GetObjectItem p "command" = some (Json.str "get_status".toList) →
       remote_command_handler env (some p) = CmdOutcome.ret EspErr.ok) := by
  refine ⟨rfl, ?_, ?_, ?_, ?_, ?_, ?_, ?_⟩
  · intro p h
    unfold remote_command_handler
    dsimp only
    rw [h]
  · intro p j h hj
    unfold remote_command_handler
    dsimp only
    rw [h]
    cases j with
    | str s => exact absurd rfl (hj s)
    | num n => rfl
    | jbool b => rfl
    | obj f => rfl
    | null => rfl
  · intro p s h hs
    simp only [List.mem_cons, List.not_mem_nil, or_false, not_or] at hs
    obtain ⟨n1, n2, n3, n4, n5, n6⟩ := hs
    unfold remote_command_handler
    dsimp only
    rw [h]
    simp only [if_neg n1, if_neg n2, if_neg n3, if_neg n4, if_neg n5, if_neg n6]
  · intro p h
    unfold remote_command_handler
    dsimp only
    rw [h]
    rfl
  · intro p h
    unfold remote_command_handler
    dsimp only
    rw [h]
    rfl
  · intro p h
    unfold remote_command_handler
    dsimp only
    rw [h]
    rfl
  · intro p h
    unfold remote_command_handler
    dsimp only
    rw [h]
    rfl

/-- Witness for C9: an unknown command on a concrete params object yields
`ESP_ERR_NOT_SUPPORTED`. -/
theorem C9_command_dispatch_witness :
    remote_command_handler ⟨EspErr.fail, EspErr.ok⟩
        (some (Json.obj [("command", Json.str "bogus".toList)])) =
      CmdOutcome.ret EspErr.errNotSupported :=
  (C9_command_dispatch ⟨EspErr.fail, EspErr.ok⟩).2.2.2.1
    (Json.obj [("command", Json.str "bogus".toList)]) "bogus".toList
    rfl (by decide)

theorem wifiFields_restart_required (caps : AppCaps) (cfg1 : AppCfg) (wifi : Json)
    (hcred : (∃ s, cJSON_GetObjectItem wifi "ssid" = some (Json.str s)) ∨
             (∃ s, cJSON_GetObjectItem wifi "password" = some (Json.str s))) :
    (wifiFields caps cfg1 wifi).2 = true := by
  rcases hcred with ⟨s, hs⟩ | ⟨s, hs⟩
  · unfold wifiFields
    cases hpw : cJSON_GetObjectItem wifi "password" with
    | none => simp [hpw, hs]
    | some j => cases j <;> simp [hpw, hs]
  · unfold wifiFields
    cases hss : cJSON_GetObjectItem wifi "ssid" with
    | none => simp [hss, hs]
    | some j => cases j <;> simp [hss, hs]

theorem handle_node_settings_restarts (caps : AppCaps) (cfg0 : AppCfg)
    (node wifi : Json)
    (hwifi : cJSON_GetObjectItem node "wifi" = some wifi)
    (hcred : (∃ s, cJSON_GetObjectItem wifi "ssid" = some (Json.str s)) ∨
             (∃ s, cJSON_GetObjectItem wifi "password" = some (Json.str s))) :
    handle_node_settings caps (Except.ok cfg0) EspErr.ok node =
      NodeResult.restarted (wifiStep caps (nodeNameStep caps cfg0 node) node).1 5000 := by
  have h2 : (wifiStep caps (nodeNameStep caps cfg0 node) node).2 = true := by
    unfold wifiStep
    rw [hwifi]
    exact wifiFields_restart_required caps _ wifi hcred
  unfold handle_node_settings
  dsimp only
  rw [if_pos ⟨rfl, h2⟩]

/-- C10: a remote configuration update whose `node` section carries a WiFi
SSID or password (in particular any update that changes them) and whose save
succeeds makes `handle_node_settings` restart the device after the 5 s delay,
so control never returns to the update handler and the usual configuration
acknowledgment is never published. -/
theorem C10_wifi_change_restarts (env : UpdEnv) (cfg node wifi : Json)
    (cfg0 : AppCfg)
    (hload : env.loadRes = Except.ok cfg0)
    (hsave : env.saveRes = EspErr.ok)
    (hnode : cJSON_GetObjectItem cfg "node" = some node)
    (hwifi : cJSON_GetObjectItem node "wifi" = some wifi)
    (hcred : (∃ s, cJSON_GetObjectItem wifi "ssid" = some (Json.str s)) ∨
             (∃ s, cJSON_GetObjectItem wifi "password" = some (Json.str s))) :
    (remote_config_update_handler env (some cfg)).1 = UpdOutcome.restarted
  ∧ (remote_config_update_handler env (some cfg)).2 =
      [CfgAction.delayMs 5000, CfgAction.deviceRestart]
  ∧ (∀ st, CfgAction.publishAck st ∉ (remote_config_update_handler env (some cfg)).2) := by
  have hns : handle_node_settings env.caps env.loadRes env.saveRes node =
      NodeResult.restarted
        (wifiStep env.caps (nodeNameStep env.caps cfg0 node) node).1 5000 := by
    rw [hload, hsave]
    exact handle_node_settings_restarts env.caps cfg0 node wifi hwifi hcred
  have hmain : remote_config_update_handler env (some cfg) =
      (UpdOutcome.restarted, [CfgAction.delayMs 5000, CfgAction.deviceRestart]) := by
    unfold remote_config_update_handler
    dsimp only
    rw [hnode]
    dsimp only
    rw [hns]
  refine ⟨by rw [hmain], by rw [hmain], ?_⟩
  intro st
  rw [hmain]
  simp

/-- Concrete update environment and payload for the C10 witness. -/
def updEnv0 : UpdEnv :=
  { caps := ⟨32, 32, 64, 128⟩, loadRes := Except.ok ⟨[], [], [], [], 0⟩,
    saveRes := EspErr.ok, csiRes := EspErr.ok }

/-- Witness for C10: a concrete update carrying a new WiFi SSID restarts the
device and publishes no acknowledgment. -/
theorem C10_wifi_change_restarts_witness :
    (remote_config_update_handler updEnv0
        (some (Json.obj [("node", nodeJsonAll "n".toList "s".toList "p".toList)]))).1 =
      UpdOutcome.restarted
  ∧ (remote_config_update_handler updEnv0
        (some (Json.obj [("node", nodeJsonAll "n".toList "s".toList "p".toList)]))).2 =
      [CfgAction.delayMs 5000, CfgAction.deviceRestart]
  ∧ (∀ st, CfgAction.publishAck st ∉
      (remote_config_update_handler updEnv0
        (some (Json.obj [("node", nodeJsonAll "n".toList "s".toList "p".toList)]))).2) :=
  C10_wifi_change_restarts updEnv0
    (Json.obj [("node", nodeJsonAll "n".toList "s".toList "p".toList)])
    (nodeJsonAll "n".toList "s".toList "p".toList)
    (Json.obj [("ssid", Json.str "s".toList), ("password", Json.str "p".toList)])
    ⟨[], [], [], [], 0⟩ rfl rfl rfl rfl (Or.inl ⟨"s".toList, rfl⟩)
